import Mathlib

/-!
Verification of the CVE ingestion service (securin_assessment).

This file gives a shallow embedding, in Lean, of the parts of the
repository that the checked claims are about:

* `CVEService` (src/app/services/cve_service.py): the record store —
  lookup, update, paginated/filtered listing, statistics, and the
  upsert used by synchronization;
* `NVDClient` (src/app/services/nvd_client.py): the upstream API
  client — request retry logic and the paginated streaming loop;
* `SyncService` (src/app/services/sync_service.py): the sync
  orchestrator — cancellation and the full-sync completion update;
* the `get_cve` REST endpoint and the `CVEBase.cve_id` validation
  (src/app/api/v1/cves.py, src/app/models/cve.py).

Timestamps are modelled as integers (`Int`): every comparison the code
performs on `datetime` values is order-theoretic, so any linear order is
a faithful carrier.  Database rows live in Lean lists; the Supabase
single-row operations used by the code (`select ... eq`, `update ... eq`,
`insert`) become `List.find?`, `List.map` with a conditional replacement,
and list append.  Record payload fields that no claim inspects are
collapsed into a single `content : Nat` field.
-/

namespace Securin

/-- A stored CVE row (the columns of the `cves` table that the claims
inspect; every remaining column is abstracted into `content`). -/
structure CVERecord where
  cve_id : String
  published : Option Int := none
  last_modified : Option Int := none
  description : Option String := none
  cvss_v3_score : Option Int := none
  cvss_v3_severity : Option String := none
  vuln_status : Option String := none
  content : Nat := 0
deriving Repr, DecidableEq

/-- `CVEService.get_cve_by_id` (cve_service.py lines 100-110):
`select * from cves where cve_id = id`, returning the first row or
`None`. -/
def get_cve_by_id (store : List CVERecord) (id : String) : Option CVERecord :=
  store.find? (fun r => r.cve_id == id)

/-- `CVEService.update_cve` (cve_service.py lines 66-98) as called from
the upsert path: all fields of the incoming record except `cve_id` are
written onto the row whose `cve_id` matches (`update ... eq("cve_id", id)`).
The server-assigned `updated_at` column is not modelled. -/
def update_cve (store : List CVERecord) (id : String) (new : CVERecord) :
    List CVERecord :=
  store.map (fun r => if r.cve_id == id then { new with cve_id := id } else r)

/-- `CVEService.create_cve` (cve_service.py lines 27-64): inserts the
row into the `cves` table. -/
def create_cve (store : List CVERecord) (r : CVERecord) : List CVERecord :=
  store ++ [r]

/-- `CVEService.upsert_cve_from_nvd` (cve_service.py lines 282-313).
Returns the new store together with `(cve_id, was_created)`.

The Python guard is
`cve_data.last_modified and existing_cve.last_modified and
 cve_data.last_modified > existing_cve.last_modified`:
an update is issued only when both timestamps are present and the
incoming one is strictly newer; otherwise the call is a no-op on the
table.  A missing row is created and reported with `was_created = True`. -/
def upsert_cve_from_nvd (store : List CVERecord) (r : CVERecord) :
    List CVERecord × String × Bool :=
  match get_cve_by_id store r.cve_id with
  | some existing =>
    match r.last_modified, existing.last_modified with
    | some newMod, some oldMod =>
      if oldMod < newMod then
        (update_cve store r.cve_id r, r.cve_id, false)
      else
        (store, r.cve_id, false)
    | _, _ => (store, r.cve_id, false)
  | none => (create_cve store r, r.cve_id, true)

/-- Replacing the matched row and looking it up again finds the incoming
record (the first matching row is rewritten in place). -/
lemma find_update_cve (store : List CVERecord) (old : CVERecord) (id : String)
    (new : CVERecord) (h : get_cve_by_id store id = some old) :
    get_cve_by_id (update_cve store id new) id = some { new with cve_id := id } := by
  induction store with
  | nil => simp [get_cve_by_id, List.find?] at h
  | cons hd tl ih =>
    by_cases hh : hd.cve_id == id
    · simp [get_cve_by_id, update_cve, List.find?, hh]
    · have htl : get_cve_by_id tl id = some old := by
        simpa [get_cve_by_id, List.find?, hh] using h
      have := ih htl
      simpa [get_cve_by_id, update_cve, List.find?, hh] using this

/-- Rebuilding a record with its own `cve_id` is the identity. -/
lemma record_eta (r : CVERecord) : { r with cve_id := r.cve_id } = r := rfl

/-- C1: upsert of a record whose identifier already exists updates the
stored row exactly when the incoming last-modified timestamp is strictly
newer (the stored state then equals the incoming record); with an equal
or older timestamp the store is left unchanged; an absent identifier is
created and reported with `was_created = true`. -/
theorem upsert_cve_from_nvd_spec (store : List CVERecord) (r old : CVERecord)
    (tOld tNew : Int) :
    (get_cve_by_id store r.cve_id = some old → old.last_modified = some tOld →
      r.last_modified = some tNew → tOld < tNew →
      (upsert_cve_from_nvd store r).1 = update_cve store r.cve_id r ∧
      get_cve_by_id (upsert_cve_from_nvd store r).1 r.cve_id = some r ∧
      (upsert_cve_from_nvd store r).2.2 = false) ∧
    (get_cve_by_id store r.cve_id = some old → old.last_modified = some tOld →
      r.last_modified = some tNew → tNew ≤ tOld →
      (upsert_cve_from_nvd store r).1 = store ∧
      (upsert_cve_from_nvd store r).2.2 = false) ∧
    (get_cve_by_id store r.cve_id = none →
      (upsert_cve_from_nvd store r).1 = store ++ [r] ∧
      (upsert_cve_from_nvd store r).2.2 = true) := by
  refine ⟨?_, ?_, ?_⟩
  · intro hfind hold hnew hlt
    have h1 : (upsert_cve_from_nvd store r).1 = update_cve store r.cve_id r := by
      simp [upsert_cve_from_nvd, hfind, hold, hnew, hlt]
    refine ⟨h1, ?_, ?_⟩
    · rw [h1]
      have := find_update_cve store old r.cve_id r hfind
      rwa [record_eta] at this
    · simp [upsert_cve_from_nvd, hfind, hold, hnew, hlt]
  · intro hfind hold hnew hle
    constructor <;>
      simp [upsert_cve_from_nvd, hfind, hold, hnew, not_lt.mpr hle]
  · intro hfind
    constructor <;> simp [upsert_cve_from_nvd, create_cve, hfind]

/-- A concrete instance of `upsert_cve_from_nvd_spec`: a store holding
CVE-2024-0001 at timestamp 1, upserted with the same identifier at
timestamp 2, ends up holding the incoming record. -/
theorem upsert_cve_from_nvd_spec_witness :
    get_cve_by_id [({ cve_id := "CVE-2024-0001", last_modified := some 1 } : CVERecord)]
        "CVE-2024-0001" = some { cve_id := "CVE-2024-0001", last_modified := some 1 } ∧
    ((1 : Int) < 2) ∧
    (upsert_cve_from_nvd [({ cve_id := "CVE-2024-0001", last_modified := some 1 } : CVERecord)]
        { cve_id := "CVE-2024-0001", last_modified := some 2 }).1 =
      update_cve [({ cve_id := "CVE-2024-0001", last_modified := some 1 } : CVERecord)]
        "CVE-2024-0001" { cve_id := "CVE-2024-0001", last_modified := some 2 } ∧
    get_cve_by_id
        (upsert_cve_from_nvd [({ cve_id := "CVE-2024-0001", last_modified := some 1 } : CVERecord)]
          { cve_id := "CVE-2024-0001", last_modified := some 2 }).1 "CVE-2024-0001" =
      some { cve_id := "CVE-2024-0001", last_modified := some 2 } ∧
    (upsert_cve_from_nvd [({ cve_id := "CVE-2024-0001", last_modified := some 1 } : CVERecord)]
        { cve_id := "CVE-2024-0001", last_modified := some 2 }).2.2 = false := by
  have h := (upsert_cve_from_nvd_spec
      [({ cve_id := "CVE-2024-0001", last_modified := some 1 } : CVERecord)]
      { cve_id := "CVE-2024-0001", last_modified := some 2 }
      { cve_id := "CVE-2024-0001", last_modified := some 1 } 1 2).1
      (by decide) rfl rfl (by decide)
  exact ⟨by decide, by decide, h.1, h.2.1, h.2.2⟩

/-- `CVEService.upsert_cves_batch` (cve_service.py lines 315-335):
processes the items in order through `upsert_cve_from_nvd`, incrementing
`created_count` when `was_created` is true and `updated_count` otherwise.
Returns the final store with `(created_count, updated_count)`.  (The
Python `except` branch that skips a failing item is not modelled: the
embedded upsert is total.) -/
def upsert_cves_batch (store : List CVERecord) (items : List CVERecord) :
    List CVERecord × Nat × Nat :=
  match items with
  | [] => (store, 0, 0)
  | item :: rest =>
    let step := upsert_cve_from_nvd store item
    let tail := upsert_cves_batch step.1 rest
    if step.2.2 then (tail.1, tail.2.1 + 1, tail.2.2)
    else (tail.1, tail.2.1, tail.2.2 + 1)

/-- C10: in a batch upsert every item that is not newly created increments
the updated counter — so `created + updated` always equals the number of
items processed, and a no-op upsert (incoming last-modified equal to the
stored one, hence no write at all) is still counted as updated.  The
second conjunct exhibits this on a concrete batch: the store is returned
unchanged, yet `updated_count = 1`. -/
theorem upsert_cves_batch_counts :
    (∀ (store items : List CVERecord),
      (upsert_cves_batch store items).2.1 + (upsert_cves_batch store items).2.2 =
        items.length) ∧
    ((upsert_cves_batch [({ cve_id := "CVE-2024-0001", last_modified := some 5 } : CVERecord)]
        [{ cve_id := "CVE-2024-0001", last_modified := some 5 }]).1 =
      [({ cve_id := "CVE-2024-0001", last_modified := some 5 } : CVERecord)] ∧
    (upsert_cves_batch [({ cve_id := "CVE-2024-0001", last_modified := some 5 } : CVERecord)]
        [{ cve_id := "CVE-2024-0001", last_modified := some 5 }]).2.1 = 0 ∧
    (upsert_cves_batch [({ cve_id := "CVE-2024-0001", last_modified := some 5 } : CVERecord)]
        [{ cve_id := "CVE-2024-0001", last_modified := some 5 }]).2.2 = 1) := by
  constructor
  · intro store items
    induction items generalizing store with
    | nil => simp [upsert_cves_batch]
    | cons item rest ih =>
      have h := ih (upsert_cve_from_nvd store item).1
      simp only [upsert_cves_batch, List.length_cons]
      split <;> dsimp only <;> omega
  · exact ⟨by decide, by decide, by decide⟩

/-! ### Filtered, paginated listing (`CVEService.get_cves`) -/

/-- The filter set of `CVEFilters` (models/cve.py lines 176-195), with
dates and scores carried as integers.  The `year` filter range endpoints
are integers built by `year_start_date`/`year_end_date` below, encoding
the textual dates `"{year}-01-01"`/`"{year}-12-31"` on a yyyymmdd-style
axis that preserves their ordering. -/
structure CVEFilters where
  cve_id : Option String := none
  year : Option Int := none
  min_score : Option Int := none
  max_score : Option Int := none
  severity : Option String := none
  vuln_status : Option String := none
  modified_since : Option Int := none
  published_since : Option Int := none
  keyword : Option String := none
  sort : Option String := some "last_modified"
  order : Option String := some "desc"
deriving Repr

/-- `f"{year}-01-01"` (cve_service.py line 129) on the integer date axis. -/
def year_start_date (year : Int) : Int := year * 10000 + 101

/-- `f"{year}-12-31"` (cve_service.py line 130) on the integer date axis. -/
def year_end_date (year : Int) : Int := year * 10000 + 1231

/-- A comparison against a NULL column is false in the backing store:
`gte`/`lte`/`eq` on an absent value never matches. -/
def opt_cmp (p : Int → Bool) : Option Int → Bool
  | none => false
  | some v => p v

/-- Python's `str.upper()` on the character list of a string (the
identifiers and labels involved are ASCII). -/
def str_upper (s : String) : String := ⟨s.data.map Char.toUpper⟩

/-- Python's `str.lower()` on the character list of a string. -/
def str_lower (s : String) : String := ⟨s.data.map Char.toLower⟩

/-- The conjunction of the filters applied by `CVEService.get_cves`
(cve_service.py lines 123-154), in source order: identifier equality,
published within the year range, CVSS v3 score bounds, severity equality
(the filter value uppercased), status equality, modified-since,
published-since, and a case-insensitive substring match on the
description. -/
def matchesFilters (f : CVEFilters) (r : CVERecord) : Bool :=
  (match f.cve_id with | none => true | some v => r.cve_id == v) &&
  (match f.year with
   | none => true
   | some y => opt_cmp (fun p => year_start_date y ≤ p && p ≤ year_end_date y) r.published) &&
  (match f.min_score with
   | none => true
   | some m => opt_cmp (fun sc => m ≤ sc) r.cvss_v3_score) &&
  (match f.max_score with
   | none => true
   | some m => opt_cmp (fun sc => sc ≤ m) r.cvss_v3_score) &&
  (match f.severity with
   | none => true
   | some sev => r.cvss_v3_severity == some (str_upper sev)) &&
  (match f.vuln_status with
   | none => true
   | some vs => r.vuln_status == some vs) &&
  (match f.modified_since with
   | none => true
   | some d => opt_cmp (fun lm => d ≤ lm) r.last_modified) &&
  (match f.published_since with
   | none => true
   | some d => opt_cmp (fun p => d ≤ p) r.published) &&
  (match f.keyword with
   | none => true
   | some kw =>
     match r.description with
     | none => false
     | some d => decide ((str_lower kw).data <:+: (str_lower d).data))

/-- Insertion step of the deterministic sort used to model the store's
`order by`. -/
def insertLE {α : Type} (le : α → α → Bool) (a : α) : List α → List α
  | [] => [a]
  | b :: bs => if le a b then a :: b :: bs else b :: insertLE le a bs

/-- Insertion sort modelling the store's `order by` clause. -/
def sortLE {α : Type} (le : α → α → Bool) : List α → List α
  | [] => []
  | a :: as => insertLE le a (sortLE le as)

/-- Ordering on optional integers used for sort keys (`NULL` ordered
first; the claims only depend on the sort being a permutation). -/
def opt_int_le : Option Int → Option Int → Bool
  | none, _ => true
  | some _, none => false
  | some a, some b => a ≤ b

/-- Comparator for the whitelisted sort fields of `get_cves`
(cve_service.py lines 156-159): `cve_id`, `published`, `cvss_v3_score`,
defaulting to `last_modified`. -/
def sort_field_le (field : String) (a b : CVERecord) : Bool :=
  if field == "cve_id" then (compare a.cve_id b.cve_id).isLE
  else if field == "published" then opt_int_le a.published b.published
  else if field == "cvss_v3_score" then opt_int_le a.cvss_v3_score b.cvss_v3_score
  else opt_int_le a.last_modified b.last_modified

/-- `query.order(sort_field, desc=sort_desc)` with the Python defaults
`filters.sort or "last_modified"` and `(filters.order or "desc")`
(falsy `None`/empty strings fall back to the defaults). -/
def sortCVEs (f : CVEFilters) (l : List CVERecord) : List CVERecord :=
  let field := match f.sort with
    | none => "last_modified"
    | some s => if s == "" then "last_modified" else s
  let ord := match f.order with
    | none => "desc"
    | some o => if o == "" then "desc" else o
  if str_lower ord == "desc" then sortLE (fun a b => sort_field_le field b a) l
  else sortLE (sort_field_le field) l

/-- The shape of `CVEListResponse` (models/cve.py lines 166-173). -/
structure CVEListResponse where
  items : List CVERecord
  total : Nat
  page : Nat
  size : Nat
  has_next : Bool
  has_prev : Bool
deriving Repr, DecidableEq

/-- `CVEService.get_cves` (cve_service.py lines 112-192): filter, sort,
slice rows `offset .. offset+size-1` with `offset = (page-1)*size`, and
compute `total` by a *separate unfiltered count over the whole table*
(line 172); `has_next = page*size < total`, `has_prev = page > 1`. -/
def get_cves (store : List CVERecord) (filters : CVEFilters)
    (page : Nat := 1) (size : Nat := 20) : CVEListResponse :=
  let filtered := store.filter (matchesFilters filters)
  let sorted := sortCVEs filters filtered
  let offset := (page - 1) * size
  let items := (sorted.drop offset).take size
  let total := store.length
  { items := items, total := total, page := page, size := size,
    has_next := decide (page * size < total), has_prev := decide (1 < page) }

lemma length_insertLE {α : Type} (le : α → α → Bool) (a : α) (l : List α) :
    (insertLE le a l).length = l.length + 1 := by
  induction l with
  | nil => rfl
  | cons b bs ih =>
    simp only [insertLE]
    split <;> simp [ih]

lemma length_sortLE {α : Type} (le : α → α → Bool) (l : List α) :
    (sortLE le l).length = l.length := by
  induction l with
  | nil => rfl
  | cons a as ih => simp [sortLE, length_insertLE, ih]

/-- C7: a list request for page `p` and size `s` returns at most `s`
items, taken from offset `(p-1)*s` of the sorted filtered rows, with
`has_next = (p*s < T)` and `has_prev = (p > 1)` where `T` is the total
row count of the table. -/
theorem get_cves_pagination (store : List CVERecord) (f : CVEFilters)
    (p s : Nat) (_hp : 1 ≤ p) :
    (get_cves store f p s).items.length ≤ s ∧
    (get_cves store f p s).items =
      ((sortCVEs f (store.filter (matchesFilters f))).drop ((p - 1) * s)).take s ∧
    (get_cves store f p s).total = store.length ∧
    (get_cves store f p s).has_next = decide (p * s < store.length) ∧
    (get_cves store f p s).has_prev = decide (1 < p) := by
  refine ⟨?_, rfl, rfl, rfl, rfl⟩
  simp only [get_cves]
  exact List.length_take_le s _

/-- A concrete instance of `get_cves_pagination`: one page of size 1 over
a two-row table. -/
theorem get_cves_pagination_witness :
    (1 ≤ 1) ∧
    ((get_cves [({ cve_id := "CVE-2024-0001" } : CVERecord),
        { cve_id := "CVE-2024-0002" }] {} 1 1).items.length ≤ 1 ∧
     (get_cves [({ cve_id := "CVE-2024-0001" } : CVERecord),
        { cve_id := "CVE-2024-0002" }] {} 1 1).total = 2 ∧
     (get_cves [({ cve_id := "CVE-2024-0001" } : CVERecord),
        { cve_id := "CVE-2024-0002" }] {} 1 1).has_next = decide ((1 : Nat) * 1 < 2) ∧
     (get_cves [({ cve_id := "CVE-2024-0001" } : CVERecord),
        { cve_id := "CVE-2024-0002" }] {} 1 1).has_prev = decide ((1 : Nat) < 1)) := by
  have h := get_cves_pagination
    [({ cve_id := "CVE-2024-0001" } : CVERecord), { cve_id := "CVE-2024-0002" }]
    {} 1 1 (by decide)
  exact ⟨by decide, h.1, h.2.2.1, h.2.2.2.1, h.2.2.2.2⟩

/-- C9: the reported `total` (and hence `has_next`) is the count of the
whole record table, not of the filtered set — first conjunct: `total`
always equals the table length, for any filters; second conjunct: a
concrete severity-filtered query over a two-row table with one matching
row still reports `total = 2`, strictly more than the one matching
record. -/
theorem get_cves_total_ignores_filters :
    (∀ (store : List CVERecord) (f : CVEFilters) (p s : Nat),
      (get_cves store f p s).total = store.length) ∧
    ((get_cves [({ cve_id := "CVE-2024-0001", cvss_v3_severity := some "CRITICAL" } : CVERecord),
        { cve_id := "CVE-2024-0002", cvss_v3_severity := some "HIGH" }]
        { severity := some "CRITICAL" } 1 20).total = 2 ∧
     ([({ cve_id := "CVE-2024-0001", cvss_v3_severity := some "CRITICAL" } : CVERecord),
        { cve_id := "CVE-2024-0002", cvss_v3_severity := some "HIGH" }].filter
        (matchesFilters { severity := some "CRITICAL" })).length = 1 ∧
     (1 : Nat) < 2) := by
  exact ⟨fun store f p s => rfl, by decide, by decide, by decide⟩

/-! ### Statistics (`CVEService.get_statistics`) -/

/-- The shape of `CVEStatistics` (models/cve.py lines 222-233). -/
structure CVEStatistics where
  total_cves : Nat
  critical_cves : Nat
  high_cves : Nat
  medium_cves : Nat
  low_cves : Nat
  unscored_cves : Nat
  last_updated : Option Int
  today_published : Nat
  week_published : Nat
  month_published : Nat
deriving Repr, DecidableEq

/-- `CVEService.get_statistics` (cve_service.py lines 254-280): the total
is an exact count over the `cves` table; every per-severity and
per-recency field is the literal constant `0` ("For now, return basic
stats"), and `last_updated` is the current time. -/
def get_statistics (store : List CVERecord) (now : Int) : CVEStatistics :=
  { total_cves := store.length,
    critical_cves := 0,
    high_cves := 0,
    medium_cves := 0,
    low_cves := 0,
    unscored_cves := 0,
    last_updated := some now,
    today_published := 0,
    week_published := 0,
    month_published := 0 }

/-- The count the spec ascribes to a severity band: the number of stored
records whose CVSS v3 severity equals the band label.  This definition
follows the spec's words and exists only to be compared with
`get_statistics`. -/
def spec_severity_count (store : List CVERecord) (sev : String) : Nat :=
  (store.filter (fun r => r.cvss_v3_severity == some sev)).length

/-- The count the spec ascribes to a recency window: the number of stored
records published at or after the window start.  Spec-side definition for
comparison with `get_statistics`. -/
def spec_window_count (store : List CVERecord) (windowStart : Int) : Nat :=
  (store.filter (fun r => opt_cmp (fun p => windowStart ≤ p) r.published)).length

/-- A stored record in the CRITICAL band, published at time 100. -/
def criticalRecord : CVERecord :=
  { cve_id := "CVE-2024-0001", published := some 100, cvss_v3_severity := some "CRITICAL" }

/-- C5 counterexample: on a store holding one CRITICAL record published
after the window start, `get_statistics` reports `critical_cves = 0` and
`month_published = 0` although one stored record lies in that band and
window — the claimed equality with the per-band / per-window counts is
false. -/
theorem get_statistics_counterexample :
    (get_statistics [criticalRecord] 200).critical_cves = 0 ∧
    spec_severity_count [criticalRecord] "CRITICAL" = 1 ∧
    (get_statistics [criticalRecord] 200).month_published = 0 ∧
    spec_window_count [criticalRecord] 50 = 1 ∧
    (0 : Nat) ≠ 1 := by
  exact ⟨rfl, by decide, rfl, by decide, by decide⟩

/-- C5 (amended): `get_statistics` returns the stored record count as
`total_cves`, and the constant `0` for every severity band and every
recency window, regardless of the stored records. -/
theorem get_statistics_spec (store : List CVERecord) (now : Int) :
    (get_statistics store now).total_cves = store.length ∧
    (get_statistics store now).critical_cves = 0 ∧
    (get_statistics store now).high_cves = 0 ∧
    (get_statistics store now).medium_cves = 0 ∧
    (get_statistics store now).low_cves = 0 ∧
    (get_statistics store now).unscored_cves = 0 ∧
    (get_statistics store now).today_published = 0 ∧
    (get_statistics store now).week_published = 0 ∧
    (get_statistics store now).month_published = 0 := by
  exact ⟨rfl, rfl, rfl, rfl, rfl, rfl, rfl, rfl, rfl⟩

/-! ### Sync orchestration (`SyncService`) -/

/-- A row of the `sync_status` table (the `SyncStatus` model,
models/cve.py lines 198-213). -/
structure SyncRow where
  id : Nat
  sync_type : String := "full"
  status : String
  started_at : Int := 0
  completed_at : Option Int := none
  total_records : Nat := 0
  processed_records : Nat := 0
  new_records : Nat := 0
  updated_records : Nat := 0
  error_message : Option String := none
  last_modified_date : Option Int := none
deriving Repr, DecidableEq

/-- `SyncService._update_sync_status_error` (sync_service.py lines
188-207).  With an explicit id it sets that row's state to `"failed"`
with the message and a completion timestamp; with `None` it first looks
up the most recently started row still in the `"running"` state (and is
a no-op when there is none). -/
def update_sync_status_error (rows : List SyncRow) (syncId : Option Nat)
    (msg : String) (now : Int) : List SyncRow :=
  match syncId with
  | some sid =>
    rows.map (fun row =>
      if row.id == sid then
        { row with status := "failed", error_message := some msg,
                   completed_at := some now }
      else row)
  | none =>
    match (sortLE (fun a b => b.started_at ≤ a.started_at)
        (rows.filter (fun r => r.status == "running"))).head? with
    | none => rows
    | some latest =>
      rows.map (fun row =>
        if row.id == latest.id then
          { row with status := "failed", error_message := some msg,
                     completed_at := some now }
        else row)

/-- `SyncService.cancel_running_sync` (sync_service.py lines 108-124)
together with the effect of awaiting the cancelled task: with no active
run it returns `false` without touching the table; with an active run
(whose status row is `activeId`) the awaited task's
`asyncio.CancelledError` handler in `_perform_sync` (lines 222-225) runs
`_update_sync_status_error(sync_id, "Synchronization cancelled")`, after
which `cancel_running_sync` itself runs
`_update_sync_status_error(None, "Synchronization cancelled by user")`
and returns `true`. -/
def cancel_running_sync (isRunning : Bool) (activeId : Nat)
    (rows : List SyncRow) (now : Int) : Bool × List SyncRow :=
  if !isRunning then (false, rows)
  else
    let rows1 := update_sync_status_error rows (some activeId)
      "Synchronization cancelled" now
    let rows2 := update_sync_status_error rows1 none
      "Synchronization cancelled by user" now
    (true, rows2)

/-- The status row of the single active run used in the C3 scenario. -/
def runningRow : SyncRow := { id := 1, status := "running", started_at := 5 }

/-- C3: with no active run, `cancel_running_sync` returns `false` and
mutates nothing (first conjunct, for every table state) — this half of
the claim holds.  With an active run it returns `true` and stamps a
completion time and message, but the run's state becomes `"failed"`, not
`"cancelled"` as the claim says: the cancellation path reuses
`_update_sync_status_error`, which hard-codes the `"failed"` state
(`SyncStatusEnum.CANCELLED` is never written anywhere). -/
theorem cancel_running_sync_sets_failed :
    (∀ (rows : List SyncRow) (now : Int),
      cancel_running_sync false 1 rows now = (false, rows)) ∧
    (cancel_running_sync true 1 [runningRow] 9).1 = true ∧
    ((cancel_running_sync true 1 [runningRow] 9).2.find?
        (fun r => r.id == 1)).map SyncRow.status = some "failed" ∧
    ((cancel_running_sync true 1 [runningRow] 9).2.find?
        (fun r => r.id == 1)).map SyncRow.completed_at = some (some 9) ∧
    ((cancel_running_sync true 1 [runningRow] 9).2.find?
        (fun r => r.id == 1)).map SyncRow.error_message =
      some (some "Synchronization cancelled") ∧
    some "failed" ≠ some "cancelled" := by
  refine ⟨fun rows now => rfl, rfl, by decide, by decide, by decide, by decide⟩

/-- The batch accumulation of `_perform_full_sync` (sync_service.py
lines 253-287): items are appended to a buffer that is flushed through
`upsert_cves_batch` whenever it reaches `batch_size`, with a final flush
of the remainder. -/
def full_sync_batches {α : Type} (batchSize : Nat) (buf : List α) :
    List α → List (List α)
  | [] => if buf.isEmpty then [] else [buf]
  | x :: xs =>
    let grown := buf ++ [x]
    if batchSize ≤ grown.length then grown :: full_sync_batches batchSize [] xs
    else full_sync_batches batchSize grown xs

/-- `SyncService._perform_full_sync` (sync_service.py lines 233-306):
drains the client stream in batches through `upsert_cves_batch`,
accumulating processed/created/updated counters, and finally writes the
completion update — status `"completed"`, the counters, and
`last_modified_date := datetime.now(timezone.utc)` (line 297), i.e. the
wall-clock completion instant `now`.  Returns the final store and the
final state of the sync row. -/
def perform_full_sync (store : List CVERecord) (items : List CVERecord)
    (totalRecords : Nat) (batchSize : Nat) (now : Int) (row : SyncRow) :
    List CVERecord × SyncRow :=
  let batches := full_sync_batches batchSize [] items
  let final := batches.foldl
    (fun acc batch =>
      let step := upsert_cves_batch acc.1 batch
      (step.1, acc.2.1 + batch.length, acc.2.2.1 + step.2.1, acc.2.2.2 + step.2.2))
    (store, 0, 0, 0)
  (final.1,
   { row with status := "completed",
              total_records := totalRecords,
              processed_records := final.2.1,
              new_records := final.2.2.1,
              updated_records := final.2.2.2,
              completed_at := some now,
              last_modified_date := some now })

/-- The maximum last-modified timestamp observed across a run's records
— the high-water mark the spec says a completed full sync must record.
This definition follows the spec's words and exists only to be compared
with `perform_full_sync`. -/
def spec_max_observed_last_modified (items : List CVERecord) : Option Int :=
  items.foldl
    (fun acc r =>
      match r.last_modified, acc with
      | some t, some m => some (max m t)
      | some t, none => some t
      | none, a => a)
    none

/-- The single item of the C4 counterexample run, last modified at 5. -/
def itemModifiedAt5 : CVERecord := { cve_id := "CVE-2024-0001", last_modified := some 5 }

/-- The sync row the C4 scenario starts from. -/
def fullSyncRow : SyncRow := { id := 2, status := "running", started_at := 0 }

/-- C4 counterexample: a full sync run over one record last modified at
time 5, completing at wall-clock time 10, records `10` — the completion
time — as `last_modified_date`, not the maximum observed last-modified
timestamp `5` required by the claim. -/
theorem perform_full_sync_counterexample :
    (perform_full_sync [] [itemModifiedAt5] 1 1000 10 fullSyncRow).2.last_modified_date =
      some 10 ∧
    spec_max_observed_last_modified [itemModifiedAt5] = some 5 ∧
    (some (10 : Int)) ≠ some 5 := by
  exact ⟨by decide, by decide, by decide⟩

/-- C4 (amended): when the full-sync batch loop finishes, the run's
status is `"completed"` with a completion timestamp, and the recorded
high-water mark is the wall-clock completion time `now` — whatever
last-modified timestamps were observed in the processed records. -/
theorem perform_full_sync_completion (store items : List CVERecord)
    (totalRecords batchSize : Nat) (now : Int) (row : SyncRow) :
    (perform_full_sync store items totalRecords batchSize now row).2.status =
      "completed" ∧
    (perform_full_sync store items totalRecords batchSize now row).2.completed_at =
      some now ∧
    (perform_full_sync store items totalRecords batchSize now row).2.last_modified_date =
      some now := by
  exact ⟨rfl, rfl, rfl⟩

/-! ### Identifier validation and the get-by-id endpoint -/

/-- The regular expression applied to identifiers, both by the model
field `cve_id: str = Field(..., pattern=r"^CVE-\d\x7b4\x7d-\d\x7b4,\x7d$")`
(models/cve.py line 95) and by the path parameter of the `get_cve`
endpoint (cves.py line 112): the literal `CVE-`, four digits, `-`, four
or more digits, anchored at both ends.  Python regex matching is
case-sensitive, so a lowercase `cve-` prefix does not match. -/
def matchesCveIdPattern (s : String) : Bool :=
  let cs := s.data
  decide (13 ≤ cs.length) &&
  (cs.take 4 == "CVE-".data) &&
  ((cs.drop 4).take 4).all Char.isDigit &&
  ((cs.drop 8).take 1 == "-".data) &&
  (cs.drop 9).all Char.isDigit

/-- `CVEBase.validate_cve_id` (models/cve.py lines 102-106) combined
with the field's `pattern` constraint: pydantic checks the `pattern`
during core validation, before the (after-mode) field validator runs, so
only strings matching the pattern reach the `startswith('CVE-')` check
and the `.upper()` normalization; everything else is a validation
error (`none`). -/
def validate_cve_id (v : String) : Option String :=
  if matchesCveIdPattern v then
    if !(v.data.take 4 == "CVE-".data) then none
    else some (str_upper v)
  else none

/-- Outcome of a `GET /cves/{cve_id}` request. -/
inductive GetCveResult where
  | ok (r : CVERecord)
  | notFound
  | validationError
deriving Repr, DecidableEq

/-- The `get_cve` endpoint (cves.py lines 110-136): FastAPI validates the
path parameter against the pattern first (a mismatch is a 422 validation
error); only then does the handler run
`cve_service.get_cve_by_id(cve_id.upper())`, answering 404 when the row
is absent. -/
def get_cve_endpoint (store : List CVERecord) (cve_id : String) : GetCveResult :=
  if !(matchesCveIdPattern cve_id) then .validationError
  else
    match get_cve_by_id store (str_upper cve_id) with
    | some r => .ok r
    | none => .notFound

/-- The stored row targeted by the C6 scenario. -/
def storedCve20230001 : CVERecord := { cve_id := "CVE-2023-0001", last_modified := some 1 }

/-- C6: the claim fails — a lowercase identifier in valid format is never
normalized to uppercase, because the pattern guard on the path parameter
(and, for record creation, on the pydantic field) rejects it with a
validation error before the `.upper()` call can run: get-by-id for
`"cve-2023-0001"` answers 422 while `"CVE-2023-0001"` returns the row,
and `validate_cve_id` likewise rejects the lowercase form. -/
theorem get_cve_lowercase_rejected :
    get_cve_endpoint [storedCve20230001] "cve-2023-0001" = .validationError ∧
    get_cve_endpoint [storedCve20230001] "CVE-2023-0001" = .ok storedCve20230001 ∧
    validate_cve_id "cve-2023-0001" = none ∧
    validate_cve_id "CVE-2023-0001" = some "CVE-2023-0001" ∧
    (GetCveResult.validationError ≠ .ok storedCve20230001) := by
  refine ⟨by decide, by decide, by decide, ?_, by decide⟩
  decide

/-! ### Upstream request retry logic (`NVDClient._make_request`) -/

/-- What one attempt of the HTTP request observes: a response with a
status code and body, a network failure (`aiohttp.ClientError`), or a
timeout (`asyncio.TimeoutError`). -/
inductive AttemptOutcome where
  | response (requestStatus : Nat) (body : Nat)
  | netFailure
  | timedOut
deriving Repr, DecidableEq

/-- The distinct failures `_make_request` raises: `RateLimitError` after
exhausting retries on 403; `NVDAPIError("HTTP {status}: {body}")`
carrying the upstream status and body; `NVDAPIError("Network error after
{n} attempts")`; `NVDAPIError("Timeout after {n} attempts")`; and the
loop-exit `NVDAPIError("Max retries exceeded")`. -/
inductive RequestFailure where
  | rateLimitExhausted
  | httpFailure (requestStatus : Nat) (body : Nat)
  | networkFailure (attempts : Nat)
  | timeoutFailure (attempts : Nat)
  | maxRetriesExceeded
deriving Repr, DecidableEq

/-- `delay = self.rate_limit_delay * (2 ** (attempt - 1))`
(nvd_client.py line 93): the backoff delay slept before retry
`attempt` (for `attempt ≥ 1`). -/
def backoff_delay (baseDelay attempt : Nat) : Nat :=
  baseDelay * 2 ^ (attempt - 1)

/-- The attempt loop of `NVDClient._make_request` (nvd_client.py lines
89-153), one step per `for attempt in range(max_retries + 1)` iteration
(`fuel` counts the remaining iterations, `attempt` the current index;
`outcomes` gives each attempt's observation):

* status 403 (the rate-limit status): retry while `attempt < max_retries`,
  else `RateLimitError`;
* other status ≥ 400: retry only when the status is ≥ 500 and attempts
  remain, else fail immediately with the upstream status and body;
* status < 400: return the parsed body;
* network failure / timeout: retry while attempts remain, else the typed
  error naming `max_retries + 1` attempts. -/
def make_request_go (maxRetries : Nat) (outcomes : Nat → AttemptOutcome) :
    Nat → Nat → Except RequestFailure Nat
  | 0, _ => .error .maxRetriesExceeded
  | fuel + 1, attempt =>
    match outcomes attempt with
    | .response requestStatus body =>
      if requestStatus == 403 then
        if attempt < maxRetries then make_request_go maxRetries outcomes fuel (attempt + 1)
        else .error .rateLimitExhausted
      else if 400 ≤ requestStatus then
        if 500 ≤ requestStatus && attempt < maxRetries then
          make_request_go maxRetries outcomes fuel (attempt + 1)
        else .error (.httpFailure requestStatus body)
      else .ok body
    | .netFailure =>
      if attempt < maxRetries then make_request_go maxRetries outcomes fuel (attempt + 1)
      else .error (.networkFailure (maxRetries + 1))
    | .timedOut =>
      if attempt < maxRetries then make_request_go maxRetries outcomes fuel (attempt + 1)
      else .error (.timeoutFailure (maxRetries + 1))

/-- `NVDClient._make_request`: the loop starts at attempt 0 and runs at
most `max_retries + 1` iterations. -/
def make_request (maxRetries : Nat) (outcomes : Nat → AttemptOutcome) :
    Except RequestFailure Nat :=
  make_request_go maxRetries outcomes (maxRetries + 1) 0

lemma make_request_go_const_retry (maxRetries : Nat)
    (outcomes : Nat → AttemptOutcome) (e : RequestFailure)
    (hstep : ∀ fuel attempt, make_request_go maxRetries outcomes (fuel + 1) attempt =
      if attempt < maxRetries then make_request_go maxRetries outcomes fuel (attempt + 1)
      else .error e) :
    ∀ fuel attempt, attempt + fuel = maxRetries + 1 → 0 < fuel →
      make_request_go maxRetries outcomes fuel attempt = .error e := by
  intro fuel
  induction fuel with
  | zero => omega
  | succ n ih =>
    intro attempt hsum _
    rw [hstep n attempt]
    by_cases hlt : attempt < maxRetries
    · rw [if_pos hlt]
      exact ih (attempt + 1) (by omega) (by omega)
    · rw [if_neg hlt]

/-- C8: `_make_request` fails immediately — whatever the later attempts
would observe — on a first-response 4xx status other than 403, carrying
the upstream status and body (conjunct 1); it retries 403, network
failures, timeouts and 5xx statuses until the `max_retries + 1` attempts
are exhausted and then raises the typed error for that cause — rate-limit
exhaustion, network failure or timeout after `max_retries + 1` attempts,
or the surfaced 5xx status and body (conjuncts 2-5); and the delay
between retries doubles with each further attempt (conjunct 6). -/
theorem make_request_spec (maxRetries : Nat) :
    (∀ (outcomes : Nat → AttemptOutcome) (s b : Nat),
      outcomes 0 = .response s b → 400 ≤ s → s ≠ 403 → s < 500 →
      make_request maxRetries outcomes = .error (.httpFailure s b)) ∧
    (∀ b, make_request maxRetries (fun _ => .response 403 b) =
      .error .rateLimitExhausted) ∧
    (make_request maxRetries (fun _ => .netFailure) =
      .error (.networkFailure (maxRetries + 1))) ∧
    (make_request maxRetries (fun _ => .timedOut) =
      .error (.timeoutFailure (maxRetries + 1))) ∧
    (∀ s b, 500 ≤ s → make_request maxRetries (fun _ => .response s b) =
      .error (.httpFailure s b)) ∧
    (∀ baseDelay attempt, 1 ≤ attempt →
      backoff_delay baseDelay (attempt + 1) = 2 * backoff_delay baseDelay attempt) := by
  refine ⟨?_, ?_, ?_, ?_, ?_, ?_⟩
  · intro outcomes s b h0 h400 h403 h500
    have hne : (s == 403) = false := by
      simp only [beq_eq_false_iff_ne, ne_eq]
      exact h403
    simp [make_request, make_request_go, h0, hne, h400, Nat.not_le.mpr h500]
  · intro b
    refine make_request_go_const_retry maxRetries _ _ ?_ (maxRetries + 1) 0
      (by omega) (by omega)
    intro fuel attempt
    simp [make_request_go]
  · refine make_request_go_const_retry maxRetries _ _ ?_ (maxRetries + 1) 0
      (by omega) (by omega)
    intro fuel attempt
    simp [make_request_go]
  · refine make_request_go_const_retry maxRetries _ _ ?_ (maxRetries + 1) 0
      (by omega) (by omega)
    intro fuel attempt
    simp [make_request_go]
  · intro s b hs
    have h4 : (400 : Nat) ≤ s := by omega
    refine make_request_go_const_retry maxRetries _ _ ?_ (maxRetries + 1) 0
      (by omega) (by omega)
    intro fuel attempt
    have hne : (s == 403) = false := by
      simp only [beq_eq_false_iff_ne, ne_eq]
      omega
    simp [make_request_go, hne, hs, h4]
  · intro baseDelay attempt h1
    unfold backoff_delay
    have : attempt + 1 - 1 = (attempt - 1) + 1 := by omega
    rw [this, pow_succ]
    ring

/-- A concrete instance of `make_request_spec`: with two retries allowed,
a first response of 404 with body 7 fails immediately with that status
and body, and the all-403 run exhausts into a rate-limit error. -/
theorem make_request_spec_witness :
    ((fun _ => AttemptOutcome.response 404 7) 0 = AttemptOutcome.response 404 7) ∧
    ((400 : Nat) ≤ 404) ∧ ((404 : Nat) ≠ 403) ∧ ((404 : Nat) < 500) ∧
    make_request 2 (fun _ => .response 404 7) = .error (.httpFailure 404 7) ∧
    make_request 2 (fun _ => .response 403 0) = .error .rateLimitExhausted := by
  refine ⟨rfl, by decide, by decide, by decide, ?_, ?_⟩
  · exact (make_request_spec 2).1 (fun _ => .response 404 7) 404 7 rfl
      (by decide) (by decide) (by decide)
  · exact (make_request_spec 2).2.1 0

/-! ### Streaming pagination (`NVDClient.get_all_cves`) -/

/-- The page served by an unchanging upstream: `startIndex`/`resultsPerPage`
slicing of the full record list, with `totalResults` its length.  This is
the claim's stated assumption that no records are added or removed
upstream mid-fetch. -/
def nvd_page {α : Type} (upstream : List α) (startIndex resultsPerPage : Nat) :
    List α :=
  (upstream.drop startIndex).take resultsPerPage

/-- The loop-top adjustment of `NVDClient.get_all_cves` (nvd_client.py
lines 261-262): `if max_results and (max_results - fetched_count) <
self.results_per_page: kwargs["results_per_page"] = max_results -
fetched_count`.  A `max_results` of `0` is falsy in Python and leaves
the kwargs untouched; once set, the kwargs value persists across
iterations. -/
def next_kwargs_rpp (selfRpp : Nat) (maxResults : Option Nat) (fetched : Nat)
    (kw : Option Nat) : Option Nat :=
  match maxResults with
  | some m => if m != 0 && decide (m - fetched < selfRpp) then some (m - fetched) else kw
  | none => kw

/-- The in-loop cap test (nvd_client.py line 273):
`if max_results and fetched_count >= max_results: return` fires during a
page exactly when the cap is truthy and the page carries the run past
it. -/
def cap_reached (maxResults : Option Nat) (fetched pageLen : Nat) : Bool :=
  match maxResults with
  | some m => m != 0 && decide (m ≤ fetched + pageLen)
  | none => false

/-- How many further items the loop yields from the current page when the
cap fires inside it. -/
def cap_remaining (maxResults : Option Nat) (fetched : Nat) : Nat :=
  match maxResults with
  | some m => m - fetched
  | none => 0

/-- The `while True` loop of `NVDClient.get_all_cves` (nvd_client.py
lines 255-293), one `fuel` step per iteration: adjust the kwargs page
size, fetch the page (`resultsPerPage = results_per_page or
self.results_per_page`), stop on an empty page; yield the page's items
one by one, returning mid-page once the cap is reached; break once
`start_index + len(page) >= total_results`; otherwise advance
`start_index` by the number of records actually returned and continue.
-/
def get_all_cves_aux {α : Type} (pageAt : Nat → Nat → List α)
    (totalResults selfRpp : Nat) (maxResults : Option Nat) :
    Nat → Nat → Nat → Option Nat → List α
  | 0, _, _, _ => []
  | fuel + 1, startIndex, fetched, kw =>
    let kw' := next_kwargs_rpp selfRpp maxResults fetched kw
    let page := pageAt startIndex (kw'.getD selfRpp)
    if page.isEmpty then []
    else if cap_reached maxResults fetched page.length then
      page.take (cap_remaining maxResults fetched)
    else if totalResults ≤ startIndex + page.length then page
    else
      page ++ get_all_cves_aux pageAt totalResults selfRpp maxResults fuel
        (startIndex + page.length) (fetched + page.length) kw'

/-- `NVDClient.get_all_cves` over an unchanging upstream: the loop starts
at `start_index = 0`, `fetched_count = 0`, with no page-size override;
`upstream.length + 1` fuel bounds the iteration count, since every
iteration that continues advances `start_index` by at least one. -/
def get_all_cves {α : Type} (upstream : List α) (selfRpp : Nat)
    (maxResults : Option Nat) : List α :=
  get_all_cves_aux (nvd_page upstream) upstream.length selfRpp maxResults
    (upstream.length + 1) 0 0 none

lemma get_all_cves_aux_nocap {α : Type} (L : List α) (selfRpp : Nat)
    (mr : Option Nat) (hmr : mr = none ∨ mr = some 0) (hr : 1 ≤ selfRpp) :
    ∀ fuel startIndex fetched, L.length + 1 ≤ fuel + startIndex →
      get_all_cves_aux (nvd_page L) L.length selfRpp mr fuel startIndex fetched none
        = L.drop startIndex := by
  intro fuel
  induction fuel with
  | zero =>
    intro startIndex fetched hfuel
    have : L.length ≤ startIndex := by omega
    simp [get_all_cves_aux, List.drop_eq_nil_of_le this]
  | succ n ih =>
    intro startIndex fetched hfuel
    have hkw : next_kwargs_rpp selfRpp mr fetched none = none := by
      rcases hmr with h | h <;> simp [h, next_kwargs_rpp]
    have hcap : ∀ k, cap_reached mr fetched k = false := by
      intro k
      rcases hmr with h | h <;> simp [h, cap_reached]
    simp only [get_all_cves_aux, hkw, Option.getD_some, Option.getD_none, hcap,
      Bool.false_eq_true, if_false]
    by_cases hD : L.length ≤ startIndex
    · simp [nvd_page, List.drop_eq_nil_of_le hD]
    · push_neg at hD
      have hDlen : (L.drop startIndex).length = L.length - startIndex := by
        simp
      have hpagelen : (nvd_page L startIndex selfRpp).length
          = min selfRpp (L.length - startIndex) := by
        simp [nvd_page]
      have hpos : 0 < (nvd_page L startIndex selfRpp).length := by
        rw [hpagelen]
        omega
      have hne : (nvd_page L startIndex selfRpp).isEmpty = false := by
        rcases hp : nvd_page L startIndex selfRpp with _ | ⟨a, rest⟩
        · rw [hp] at hpos
          simp at hpos
        · rfl
      rw [hne]
      simp only [Bool.false_eq_true, if_false]
      by_cases hlast : L.length ≤ startIndex + (nvd_page L startIndex selfRpp).length
      · rw [if_pos hlast]
        rw [hpagelen] at hlast
        exact List.take_of_length_le (by rw [hDlen]; omega)
      · rw [if_neg hlast]
        have hplen : (nvd_page L startIndex selfRpp).length = selfRpp := by
          rw [hpagelen] at hlast ⊢
          omega
        have hrec := ih (startIndex + (nvd_page L startIndex selfRpp).length)
          (fetched + (nvd_page L startIndex selfRpp).length) (by omega)
        have hdd : L.drop (startIndex + selfRpp) = (L.drop startIndex).drop selfRpp := by
          rw [List.drop_drop, Nat.add_comm]
        rw [hrec, hplen, hdd]
        simp only [nvd_page]
        exact List.take_append_drop selfRpp (L.drop startIndex)

lemma get_all_cves_aux_cap {α : Type} (L : List α) (selfRpp m : Nat)
    (hr : 1 ≤ selfRpp) (hm : 1 ≤ m) :
    ∀ fuel startIndex fetched kw, L.length + 1 ≤ fuel + startIndex →
      fetched < m → (kw = none ∨ m - fetched < selfRpp) →
      get_all_cves_aux (nvd_page L) L.length selfRpp (some m) fuel startIndex fetched kw
        = (L.drop startIndex).take (m - fetched) := by
  intro fuel
  induction fuel with
  | zero =>
    intro s f kw hfuel _ _
    have hs : L.length ≤ s := by omega
    simp [get_all_cves_aux, List.drop_eq_nil_of_le hs]
  | succ n ih =>
    intro s f kw hfuel hf hkwinv
    have hm0 : (m != 0) = true := by
      simp only [bne_iff_ne, ne_eq]
      omega
    have hrpp : (next_kwargs_rpp selfRpp (some m) f kw).getD selfRpp
        = min (m - f) selfRpp := by
      simp only [next_kwargs_rpp]
      by_cases hc : m - f < selfRpp
      · have hcond : (m != 0 && decide (m - f < selfRpp)) = true := by
          simp [hm0, hc]
        rw [hcond]
        simp only [if_true, Option.getD_some]
        omega
      · have hcond : (m != 0 && decide (m - f < selfRpp)) = false := by
          simp [hc]
        rcases hkwinv with h | h
        · rw [hcond]
          simp only [Bool.false_eq_true, if_false, h, Option.getD_none]
          omega
        · omega
    by_cases hD : L.length ≤ s
    · simp [get_all_cves_aux, hrpp, nvd_page, List.drop_eq_nil_of_le hD]
    · push_neg at hD
      have hpagelen : (nvd_page L s (min (m - f) selfRpp)).length
          = min (min (m - f) selfRpp) (L.length - s) := by
        simp [nvd_page]
      have hpos : 0 < (nvd_page L s (min (m - f) selfRpp)).length := by
        rw [hpagelen]
        omega
      have hne : (nvd_page L s (min (m - f) selfRpp)).isEmpty = false := by
        rcases hp : nvd_page L s (min (m - f) selfRpp) with _ | ⟨a, rest⟩
        · rw [hp] at hpos
          simp at hpos
        · rfl
      simp only [get_all_cves_aux, hrpp, hne, Bool.false_eq_true, if_false]
      by_cases hcap : m ≤ f + (nvd_page L s (min (m - f) selfRpp)).length
      · have hcr : cap_reached (some m) f (nvd_page L s (min (m - f) selfRpp)).length
            = true := by
          simp [cap_reached, hcap]
          omega
        rw [hcr]
        simp only [if_true, cap_remaining]
        simp only [nvd_page, List.take_take]
        have hmin : min (m - f) (min (m - f) selfRpp) = m - f := by
          rw [hpagelen] at hcap
          omega
        rw [hmin]
      · have hcr : cap_reached (some m) f (nvd_page L s (min (m - f) selfRpp)).length
            = false := by
          simp [cap_reached, hcap]
        rw [hcr]
        simp only [Bool.false_eq_true, if_false]
        rw [hpagelen] at hcap
        by_cases hlast : L.length ≤ s + (nvd_page L s (min (m - f) selfRpp)).length
        · rw [if_pos hlast]
          rw [hpagelen] at hlast
          simp only [nvd_page]
          rw [List.take_of_length_le (by simp; omega),
            List.take_of_length_le (by simp; omega)]
        · rw [if_neg hlast]
          rw [hpagelen] at hlast
          have hplen : (nvd_page L s (min (m - f) selfRpp)).length
              = min (m - f) selfRpp := by
            rw [hpagelen]
            omega
          have hinv2 : next_kwargs_rpp selfRpp (some m) f kw = none ∨
              m - (f + (nvd_page L s (min (m - f) selfRpp)).length) < selfRpp := by
            simp only [next_kwargs_rpp]
            by_cases hc : m - f < selfRpp
            · right
              rw [hplen]
              omega
            · rcases hkwinv with h | h
              · left
                simp [hm0, hc, h]
              · omega
          have hrec := ih (s + (nvd_page L s (min (m - f) selfRpp)).length)
            (f + (nvd_page L s (min (m - f) selfRpp)).length)
            (next_kwargs_rpp selfRpp (some m) f kw)
            (by rw [hplen]; omega) (by rw [hplen]; omega) hinv2
          rw [hrec, hplen]
          have hdd : L.drop (s + min (m - f) selfRpp)
              = (L.drop s).drop (min (m - f) selfRpp) := by
            rw [List.drop_drop, Nat.add_comm]
          rw [hdd]
          have hsplit : m - f = min (m - f) selfRpp + (m - (f + min (m - f) selfRpp)) := by
            omega
          conv_rhs => rw [hsplit]
          rw [List.take_add]
          rfl

/-- C2 counterexample: the claim's bound `min(totalResults, cap)` fails
at the cap value `0` — `0` is falsy in Python, so `max_results = 0` is
treated exactly like "no cap" and the stream yields every upstream
record rather than `min(1, 0) = 0` of them. -/
theorem get_all_cves_cap_zero_counterexample :
    get_all_cves [10] 2 (some 0) = ([10] : List Nat) ∧
    (get_all_cves ([10] : List Nat) 2 (some 0)).length = 1 ∧
    min ([10] : List Nat).length 0 = 0 ∧
    ¬ ((get_all_cves ([10] : List Nat) 2 (some 0)).length
        = min ([10] : List Nat).length 0) := by
  exact ⟨by decide, by decide, by decide, by decide⟩

/-- C2 (amended): over an unchanging upstream of `totalResults` records
and a positive page size, the streaming loop — stopping on an empty
page, on reaching the reported total, or on reaching the cap, and
advancing the offset by each page's actual length — yields the whole
upstream list when no cap is given (so exactly `totalResults` records,
no duplicates, no gaps); with a positive cap `m` it yields exactly the
first `m` records, `min totalResults m` in number, stopping normally;
and a cap of `0` is falsy in Python and behaves as no cap. -/
theorem get_all_cves_stream_spec {α : Type} (upstream : List α)
    (selfRpp m : Nat) (hr : 1 ≤ selfRpp) (hm : 1 ≤ m) :
    get_all_cves upstream selfRpp none = upstream ∧
    get_all_cves upstream selfRpp (some m) = upstream.take m ∧
    (get_all_cves upstream selfRpp (some m)).length = min upstream.length m ∧
    get_all_cves upstream selfRpp (some 0) = upstream := by
  have hnone := get_all_cves_aux_nocap upstream selfRpp none (Or.inl rfl) hr
    (upstream.length + 1) 0 0 (by omega)
  have hzero := get_all_cves_aux_nocap upstream selfRpp (some 0) (Or.inr rfl) hr
    (upstream.length + 1) 0 0 (by omega)
  have hcap := get_all_cves_aux_cap upstream selfRpp m hr hm
    (upstream.length + 1) 0 0 none (by omega) (by omega) (Or.inl rfl)
  refine ⟨?_, ?_, ?_, ?_⟩
  · rw [get_all_cves, hnone, List.drop_zero]
  · rw [get_all_cves, hcap, List.drop_zero, Nat.sub_zero]
  · rw [get_all_cves, hcap, List.drop_zero, Nat.sub_zero, List.length_take,
      Nat.min_comm]
  · rw [get_all_cves, hzero, List.drop_zero]

/-- A concrete instance of `get_all_cves_stream_spec`: page size 2 over
three upstream records — the uncapped stream yields all three (two pages
of 2 and 1), the cap-2 stream yields the first two. -/
theorem get_all_cves_stream_spec_witness :
    (1 ≤ 2) ∧ (1 ≤ 2) ∧
    get_all_cves [10, 20, 30] 2 none = ([10, 20, 30] : List Nat) ∧
    get_all_cves [10, 20, 30] 2 (some 2) = ([10, 20, 30] : List Nat).take 2 ∧
    (get_all_cves ([10, 20, 30] : List Nat) 2 (some 2)).length =
      min ([10, 20, 30] : List Nat).length 2 := by
  have h := get_all_cves_stream_spec ([10, 20, 30] : List Nat) 2 2
    (by decide) (by decide)
  exact ⟨by decide, by decide, h.1, h.2.1, h.2.2.1⟩

end Securin
